import Mathlib

/-!
Verification of the a-share-mcp data-access layer.

Shallow embedding of the fetch/classify/session code in
`src/baostock_data_source.py`, `src/utils.py` and the trading-calendar
tools in `src/tools/date_utils.py`.  Python strings are Lean `String`s,
compared by Unicode code point exactly as Python compares them; Python
exceptions become an explicit `PyExn` sum carried in `Except`; the
provider cursor (`rs`) is the fully drained `QueryResult`; effects of the
external provider (login result, query outcome, possible logout failure)
are passed in as explicit parameters.
-/

namespace AShare

/-! ## Python string comparison (lexicographic by code point) -/

/-- Lexicographic strict order on char lists by code point, as Python
compares strings. -/
def lexLt : List Char → List Char → Bool
  | [], [] => false
  | [], _ :: _ => true
  | _ :: _, [] => false
  | a :: as, b :: bs =>
      if a.toNat < b.toNat then true
      else if b.toNat < a.toNat then false
      else lexLt as bs

/-- Python `a < b` on strings. -/
def strLt (a b : String) : Bool := lexLt a.data b.data

/-- Python `a <= b` on strings (total order, so `a <= b ↔ ¬ b < a`). -/
def strLe (a b : String) : Bool := !(strLt b a)

theorem lexLt_irrefl (l : List Char) : lexLt l l = false := by
  induction l with
  | nil => rfl
  | cons a as ih => simp [lexLt, ih]

theorem lexLt_nil (l : List Char) : lexLt l [] = false := by
  cases l <;> rfl

theorem lexLt_asymm : ∀ (a b : List Char), lexLt a b = true → lexLt b a = false
  | [], b, _ => lexLt_nil b
  | _ :: _, [], h => by rw [lexLt_nil] at h; cases h
  | a :: as, b :: bs, h => by
      simp only [lexLt] at h ⊢
      rcases Nat.lt_trichotomy a.toNat b.toNat with hl | he | hg
      · rw [if_neg (by omega), if_pos hl]
      · rw [if_neg (by omega), if_neg (by omega)] at h
        rw [if_neg (by omega), if_neg (by omega)]
        exact lexLt_asymm as bs h
      · rw [if_neg (by omega), if_pos hg] at h
        cases h

theorem lexLt_trans : ∀ (a b c : List Char),
    lexLt a b = true → lexLt b c = true → lexLt a c = true
  | _, b, [], _, h2 => by rw [lexLt_nil b] at h2; cases h2
  | [], _ :: _, _ :: _, _, _ => by simp [lexLt]
  | _ :: _, [], _, h1, _ => by rw [lexLt_nil] at h1; cases h1
  | a :: as, b :: bs, c :: cs, h1, h2 => by
      simp only [lexLt] at h1 h2 ⊢
      have hab : a.toNat < b.toNat ∨ (a.toNat = b.toNat ∧ lexLt as bs = true) := by
        rcases Nat.lt_trichotomy a.toNat b.toNat with hl | he | hg
        · exact Or.inl hl
        · rw [if_neg (by omega), if_neg (by omega)] at h1; exact Or.inr ⟨he, h1⟩
        · rw [if_neg (by omega), if_pos hg] at h1; cases h1
      have hbc : b.toNat < c.toNat ∨ (b.toNat = c.toNat ∧ lexLt bs cs = true) := by
        rcases Nat.lt_trichotomy b.toNat c.toNat with hl | he | hg
        · exact Or.inl hl
        · rw [if_neg (by omega), if_neg (by omega)] at h2; exact Or.inr ⟨he, h2⟩
        · rw [if_neg (by omega), if_pos hg] at h2; cases h2
      rcases hab with hl | ⟨he, ht⟩
      · rw [if_pos (by rcases hbc with h | ⟨h, _⟩ <;> omega)]
      · rcases hbc with hl' | ⟨he', ht'⟩
        · rw [if_pos (by omega)]
        · rw [if_neg (by omega), if_neg (by omega)]
          exact lexLt_trans as bs cs ht ht'

theorem strLt_irrefl (s : String) : strLt s s = false := lexLt_irrefl s.data

theorem strLt_asymm {a b : String} (h : strLt a b = true) : strLt b a = false :=
  lexLt_asymm a.data b.data h

theorem strLt_trans {a b c : String} (h1 : strLt a b = true)
    (h2 : strLt b c = true) : strLt a c = true :=
  lexLt_trans a.data b.data c.data h1 h2

theorem strLe_refl (s : String) : strLe s s = true := by
  simp [strLe, strLt_irrefl]

theorem strLe_of_strLt {a b : String} (h : strLt a b = true) : strLe a b = true := by
  simp [strLe, strLt_asymm h]

theorem strLe_total {a b : String} (h : ¬ strLe a b = true) : strLe b a = true := by
  unfold strLe at h ⊢
  cases hx : strLt b a with
  | false => exact absurd (by rw [hx]; rfl) h
  | true => rw [strLt_asymm hx]; rfl

theorem lexLt_neg_trans : ∀ (a b c : List Char),
    lexLt b a = false → lexLt c b = false → lexLt c a = false
  | [], _, c, _, _ => lexLt_nil c
  | _ :: _, [], _, h1, _ => by simp [lexLt] at h1
  | _ :: _, _ :: _, [], _, h2 => by simp [lexLt] at h2
  | a :: as, b :: bs, c :: cs, h1, h2 => by
      simp only [lexLt] at h1 h2 ⊢
      have hba : ¬ b.toNat < a.toNat := by
        intro h; rw [if_pos h] at h1; cases h1
      have hcb : ¬ c.toNat < b.toNat := by
        intro h; rw [if_pos h] at h2; cases h2
      rw [if_neg (by omega)]
      rcases Nat.lt_trichotomy a.toNat c.toNat with hl | he | hg
      · rw [if_pos hl]
      · rw [if_neg (by omega)]
        have hab : a.toNat = b.toNat := by omega
        have hbc : b.toNat = c.toNat := by omega
        rw [if_neg (by omega), if_neg (by omega)] at h1
        rw [if_neg (by omega), if_neg (by omega)] at h2
        exact lexLt_neg_trans as bs cs h1 h2
      · omega

theorem strLe_trans {a b c : String} (h1 : strLe a b = true)
    (h2 : strLe b c = true) : strLe a c = true := by
  simp only [strLe, Bool.not_eq_true'] at h1 h2 ⊢
  exact lexLt_neg_trans a.data b.data c.data h1 h2

/-! ## Substring containment (Python `pat in s`) -/

/-- `startsWithL p l`: `p` is an initial segment of `l`. -/
def startsWithL : List Char → List Char → Bool
  | [], _ => true
  | _ :: _, [] => false
  | p :: ps, x :: xs => p == x && startsWithL ps xs

/-- `subListIn p l`: `p` occurs contiguously inside `l`
(Python `p in l` on strings). -/
def subListIn (p : List Char) : List Char → Bool
  | [] => p.isEmpty
  | x :: xs => startsWithL p (x :: xs) || subListIn p xs

/-- Python `pat in s` for strings. -/
def strContainsSub (s pat : String) : Bool := subListIn pat.data s.data

/-- Python `"no record found" in msg.lower()`; `String.toLower` lowers
ASCII letters, which is all the provider's messages use. -/
def msgSaysNoRecord (msg : String) : Bool :=
  strContainsSub msg.toLower "no record found"

/-! ## Exceptions, session events, provider responses -/

/-- The exception taxonomy of `src/data_source_interface.py`, plus
`other` for every exception outside it (network faults, bugs...).
Each constructor carries the Python exception's message. -/
inductive PyExn where
  | loginError (msg : String)
  | noDataFound (msg : String)
  | dataSourceError (msg : String)
  | valueError (msg : String)
  | other (msg : String)
deriving DecidableEq, Repr

/-- `True` for the four typed errors of the façade's taxonomy. -/
def isTypedExn : PyExn → Bool
  | .other _ => false
  | _ => true

/-- The message Python would print for the exception (its `str`). -/
def pyExnMsg : PyExn → String
  | .loginError m => m
  | .noDataFound m => m
  | .dataSourceError m => m
  | .valueError m => m
  | .other m => m

/-- Observable calls the session context makes on the provider. -/
inductive SessEvent where
  | login
  | bodyRun
  | logout
deriving DecidableEq, Repr

/-- Result object of `bs.login()`. -/
structure LoginResult where
  error_code : String
  error_msg : String
deriving DecidableEq, Repr

/-- Shallow embedding of `baostock_login_context` (`src/utils.py` lines
36-91).  `login` is what `bs.login()` returns; `body` is the code run
under the `yield`; `logoutFail` is `some e` when `bs.logout()` raises `e`
inside the `finally` block (the source wraps it in no handler, so such an
exception escapes the context manager and replaces the body's outcome).
Returns the call's outcome together with the trace of provider calls. -/
def baostock_login_context {α : Type} (login : LoginResult)
    (body : Unit → Except PyExn α) (logoutFail : Option PyExn) :
    Except PyExn α × List SessEvent :=
  if login.error_code ≠ "0" then
    (.error (.loginError ("Baostock login failed: " ++ login.error_msg)),
     [.login])
  else
    let r := body ()
    let res : Except PyExn α :=
      match logoutFail with
      | some e => .error e
      | none => r
    (res, [.login, .bodyRun, .logout])

/-- The provider cursor after draining: `error_code`/`error_msg`/`fields`
as reported by the query, and `rows` the list of rows that successive
`rs.next()` / `rs.get_row_data()` calls yield. -/
structure QueryResult where
  error_code : String
  error_msg : String
  fields : List String
  rows : List (List String)
deriving DecidableEq, Repr

/-- A pandas DataFrame as built by the fetches: column names plus rows. -/
structure DataFrame where
  columns : List String
  rows : List (List String)
deriving DecidableEq, Repr

/-! ## The generic fetch template (`_fetch_financial_data` and clones) -/

/-- Unexpected-exception wrapping at the fetch boundary: the
`except (LoginError, NoDataFoundError, DataSourceError, ValueError)` /
`except Exception` pair closing every fetch in
`src/baostock_data_source.py` (e.g. lines 92-100).  `ctxMsg` is the text
the wrapper's f-string puts before the original message. -/
def wrapUnexpected {α : Type} (ctxMsg : String) (r : Except PyExn α) :
    Except PyExn α :=
  match r with
  | .ok v => .ok v
  | .error (.loginError m) => .error (.loginError m)
  | .error (.noDataFound m) => .error (.noDataFound m)
  | .error (.dataSourceError m) => .error (.dataSourceError m)
  | .error (.valueError m) => .error (.valueError m)
  | .error (.other m) => .error (.dataSourceError (ctxMsg ++ m))

/-- Body of `_fetch_financial_data` inside the login context
(`src/baostock_data_source.py` lines 65-90): classify the provider's
status, drain rows, reclassify an empty drain, build the DataFrame.
`queryOutcome` is `.error e` when `bs_query_func` itself raises. -/
def fetchFinancialBody (queryOutcome : Except PyExn QueryResult)
    (data_type_name code year : String) (quarter : Nat) :
    Except PyExn DataFrame :=
  match queryOutcome with
  | .error e => .error e
  | .ok rs =>
    if rs.error_code ≠ "0" then
      if msgSaysNoRecord rs.error_msg || rs.error_code == "10002" then
        .error (.noDataFound ("No " ++ data_type_name ++ " data found for "
          ++ code ++ ", " ++ year ++ "Q" ++ toString quarter
          ++ ". Baostock msg: " ++ rs.error_msg))
      else
        .error (.dataSourceError ("Baostock API error fetching "
          ++ data_type_name ++ " data: " ++ rs.error_msg
          ++ " (code: " ++ rs.error_code ++ ")"))
    else
      let data_list := rs.rows
      if data_list.isEmpty then
        .error (.noDataFound ("No " ++ data_type_name ++ " data found for "
          ++ code ++ ", " ++ year ++ "Q" ++ toString quarter
          ++ " (empty result set)."))
      else
        .ok { columns := rs.fields, rows := data_list }

/-- `_fetch_financial_data` (`src/baostock_data_source.py` lines 32-100):
session context around the classify/drain body, then the typed-reraise /
unexpected-wrap boundary. -/
def fetch_financial_data (login : LoginResult) (logoutFail : Option PyExn)
    (queryOutcome : Except PyExn QueryResult)
    (data_type_name code year : String) (quarter : Nat) :
    Except PyExn DataFrame :=
  wrapUnexpected
    ("Unexpected error fetching " ++ data_type_name ++ " data for "
      ++ code ++ ": ")
    (baostock_login_context login
      (fun _ => fetchFinancialBody queryOutcome data_type_name code year quarter)
      logoutFail).1

/-- A Python value passed in a `fields` list: a `str` or anything else.
Only str-ness matters to `_format_fields`' validation. -/
inductive PyVal where
  | pstr (s : String)
  | nonStr
deriving DecidableEq, Repr

/-- `True` iff `isinstance(v, str)`. -/
def PyVal.isStr : PyVal → Bool
  | .pstr _ => true
  | .nonStr => false

/-- The string of a `PyVal.pstr` (unused on the `nonStr` branch, which
`_format_fields` rejects before joining). -/
def PyVal.asStr : PyVal → String
  | .pstr s => s
  | .nonStr => ""

def DEFAULT_K_FIELDS : List String :=
  ["date", "code", "open", "high", "low", "close", "preclose",
   "volume", "amount", "adjustflag", "turn", "tradestatus",
   "pctChg", "peTTM", "pbMRQ", "psTTM", "pcfNcfTTM", "isST"]

/-- `BaostockDataSource._format_fields` (`src/baostock_data_source.py`
lines 253-275): `None`/empty falls back to the defaults; a list holding a
non-string raises `ValueError`; otherwise join with commas. -/
def format_fields (fields : Option (List PyVal)) (default_fields : List String) :
    Except PyExn String :=
  match fields with
  | none => .ok (String.intercalate "," default_fields)
  | some [] => .ok (String.intercalate "," default_fields)
  | some fs =>
    if fs.all PyVal.isStr then
      .ok (String.intercalate "," (fs.map PyVal.asStr))
    else
      .error (.valueError "All items in the fields list must be strings.")

/-- Body of `get_historical_k_data` inside the login context
(`src/baostock_data_source.py` lines 299-332). -/
def kDataBody (queryOutcome : Except PyExn QueryResult) (code : String) :
    Except PyExn DataFrame :=
  match queryOutcome with
  | .error e => .error e
  | .ok rs =>
    if rs.error_code ≠ "0" then
      if msgSaysNoRecord rs.error_msg || rs.error_code == "10002" then
        .error (.noDataFound ("No historical data found for " ++ code
          ++ " in the specified range. Baostock msg: " ++ rs.error_msg))
      else
        .error (.dataSourceError ("Baostock API error fetching K-data: "
          ++ rs.error_msg ++ " (code: " ++ rs.error_code ++ ")"))
    else
      let data_list := rs.rows
      if data_list.isEmpty then
        .error (.noDataFound ("No historical data found for " ++ code
          ++ " in the specified range (empty result set)."))
      else
        .ok { columns := rs.fields, rows := data_list }

/-- `BaostockDataSource.get_historical_k_data`
(`src/baostock_data_source.py` lines 277-345): field formatting (whose
`ValueError` the typed-reraise boundary passes through), session context,
classify body, boundary wrap. -/
def get_historical_k_data (login : LoginResult) (logoutFail : Option PyExn)
    (queryOutcome : Except PyExn QueryResult) (code : String)
    (fields : Option (List PyVal)) : Except PyExn DataFrame :=
  wrapUnexpected ("Unexpected error fetching K-data for " ++ code ++ ": ")
    (match format_fields fields DEFAULT_K_FIELDS with
     | .error e => .error e
     | .ok _ =>
       (baostock_login_context login (fun _ => kDataBody queryOutcome code)
         logoutFail).1)

/-- Body of `get_trade_dates` inside the login context
(`src/baostock_data_source.py` lines 702-726).  Unlike the other fetches
it runs NO `"no record found"` / `"10002"` check: every non-`"0"` status
becomes `DataSourceError`. -/
def tradeDatesBody (queryOutcome : Except PyExn QueryResult)
    (start_date end_date : String) : Except PyExn DataFrame :=
  match queryOutcome with
  | .error e => .error e
  | .ok rs =>
    if rs.error_code ≠ "0" then
      .error (.dataSourceError ("Baostock API error fetching trade dates: "
        ++ rs.error_msg ++ " (code: " ++ rs.error_code ++ ")"))
    else
      let data_list := rs.rows
      if data_list.isEmpty then
        .error (.noDataFound ("No trade dates found for range " ++ start_date
          ++ "-" ++ end_date ++ " (empty result set)."))
      else
        .ok { columns := rs.fields, rows := data_list }

/-- `BaostockDataSource.get_trade_dates`
(`src/baostock_data_source.py` lines 693-735). -/
def get_trade_dates (login : LoginResult) (logoutFail : Option PyExn)
    (queryOutcome : Except PyExn QueryResult) (start_date end_date : String) :
    Except PyExn DataFrame :=
  wrapUnexpected "Unexpected error fetching trade dates: "
    (baostock_login_context login
      (fun _ => tradeDatesBody queryOutcome start_date end_date) logoutFail).1

/-! ## Dates (`datetime` fragments the calendar tools use) -/

/-- A `datetime.date`: proleptic Gregorian year/month/day. -/
structure PyDate where
  year : Nat
  month : Nat
  day : Nat
deriving DecidableEq, Repr

def isLeapYear (y : Nat) : Bool :=
  (y % 4 == 0 && y % 100 != 0) || (y % 400 == 0)

def monthLen (y m : Nat) : Nat :=
  if m = 2 then (if isLeapYear y then 29 else 28)
  else if m = 4 ∨ m = 6 ∨ m = 9 ∨ m = 11 then 30
  else 31

def validDate (d : PyDate) : Prop :=
  1 ≤ d.month ∧ d.month ≤ 12 ∧ 1 ≤ d.day ∧ d.day ≤ monthLen d.year d.month

instance (d : PyDate) : Decidable (validDate d) := by
  unfold validDate; infer_instance

/-- Two-digit zero padding (`%m`, `%d`, `:02d`). -/
def pad2 (n : Nat) : String :=
  if n < 10 then "0" ++ toString n else toString n

/-- Four-digit zero padding (`%Y`). -/
def pad4 (n : Nat) : String :=
  if n < 10 then "000" ++ toString n
  else if n < 100 then "00" ++ toString n
  else if n < 1000 then "0" ++ toString n
  else toString n

/-- `d.strftime("%Y-%m-%d")`. -/
def strftimeYmd (d : PyDate) : String :=
  pad4 d.year ++ "-" ++ pad2 d.month ++ "-" ++ pad2 d.day

/-- The calendar day before `d` (valid dates in, valid dates out). -/
def prevDay (d : PyDate) : PyDate :=
  if 1 < d.day then ⟨d.year, d.month, d.day - 1⟩
  else if 1 < d.month then ⟨d.year, d.month - 1, monthLen d.year (d.month - 1)⟩
  else ⟨d.year - 1, 12, 31⟩

/-- The calendar day after `d`. -/
def nextDay (d : PyDate) : PyDate :=
  if d.day < monthLen d.year d.month then ⟨d.year, d.month, d.day + 1⟩
  else if d.month < 12 then ⟨d.year, d.month + 1, 1⟩
  else ⟨d.year + 1, 1, 1⟩

/-- `d - timedelta(days=n)`. -/
def subDays (d : PyDate) : Nat → PyDate
  | 0 => d
  | n + 1 => prevDay (subDays d n)

/-- `d + timedelta(days=n)`. -/
def addDays (d : PyDate) : Nat → PyDate
  | 0 => d
  | n + 1 => nextDay (addDays d n)

/-- Value of an ASCII digit. -/
def digitVal (c : Char) : Option Nat :=
  if 48 ≤ c.toNat ∧ c.toNat ≤ 57 then some (c.toNat - 48) else none

/-- `datetime.strptime(s, "%Y-%m-%d")` on canonical zero-padded input:
`none` models the `ValueError` strptime raises on mismatch or an invalid
day-of-month. -/
def parseIsoDate (s : String) : Option PyDate :=
  match s.data with
  | [y1, y2, y3, y4, s1, m1, m2, s2, d1, d2] =>
    if s1 = '-' ∧ s2 = '-' then
      match digitVal y1, digitVal y2, digitVal y3, digitVal y4,
            digitVal m1, digitVal m2, digitVal d1, digitVal d2 with
      | some a, some b, some c, some dd, some e, some f, some g, some h =>
        let y := 1000 * a + 100 * b + 10 * c + dd
        let mo := 10 * e + f
        let da := 10 * g + h
        if 1 ≤ mo ∧ mo ≤ 12 ∧ 1 ≤ da ∧ da ≤ monthLen y mo then
          some ⟨y, mo, da⟩
        else none
      | _, _, _, _, _, _, _, _ => none
    else none
  | _ => none

/-! ## Calendar tools (`src/tools/date_utils.py`) -/

/-- One row of the trade-date calendar the provider returns:
`calendar_date` is `YYYY-MM-DD`, `is_trading_day` is `"0"`/`"1"`. -/
structure TradeDateRecord where
  calendar_date : String
  is_trading_day : String
deriving DecidableEq, Repr

/-- One step of the maximum-scan loop in `get_latest_trading_date`
(`src/tools/date_utils.py` lines 52-54): take `dstr` when
`dstr <= today and (latest is None or dstr > latest)`, keep `latest`
otherwise (the Python condition split over the two `latest` shapes). -/
def updLatest (today : String) : Option String → String → Option String
  | none, dstr => if strLe dstr today then some dstr else none
  | some m, dstr =>
      if strLe dstr today && strLt m dstr then some dstr else some m

/-- `get_latest_trading_date` (`src/tools/date_utils.py` lines 32-65).
`now` is `datetime.now()`; `fetch` is
`active_data_source.get_trade_dates`, `.error` when that call raises.
The broad `except` turns any raised exception into today's date. -/
def get_latest_trading_date (now : PyDate)
    (fetch : String → String → Except PyExn (List TradeDateRecord)) : String :=
  let today := strftimeYmd now
  let start_date := strftimeYmd ⟨now.year, now.month, 1⟩
  let end_date := strftimeYmd ⟨now.year, now.month, 28⟩
  match fetch start_date end_date with
  | .error _ => today
  | .ok df =>
    let valid_trading_days :=
      (df.filter (fun r => r.is_trading_day == "1")).map
        (fun r => r.calendar_date)
    match valid_trading_days.foldl (updLatest today) none with
    | some d => d
    | none => today

/-- Ascending insertion by `calendar_date` (string order, which is date
order on `YYYY-MM-DD`). -/
def insertByDate (r : TradeDateRecord) :
    List TradeDateRecord → List TradeDateRecord
  | [] => [r]
  | x :: xs =>
    if strLe r.calendar_date x.calendar_date then r :: x :: xs
    else x :: insertByDate r xs

/-- `df.sort_values(by=day_col)` ascending, as the value-level sort the
candidate rows go through before `iloc[-1]` / `iloc[0]`. -/
def sortByDate : List TradeDateRecord → List TradeDateRecord
  | [] => []
  | x :: xs => insertByDate x (sortByDate xs)

/-- `previous_trading_day` (`src/tools/date_utils.py` lines 176-203):
parse the date, query `[date-30d, date]`, keep trading days strictly
before `date`, sort ascending and take the last; fall back to the input
date, or to an `"Error: ..."` string when an exception was raised. -/
def previous_trading_day (dateStr : String)
    (fetch : String → String → Except PyExn (List TradeDateRecord)) : String :=
  match parseIsoDate dateStr with
  | none =>
    "Error: time data '" ++ dateStr ++ "' does not match format '%Y-%m-%d'"
  | some d =>
    let start := strftimeYmd (subDays d 30)
    match fetch start dateStr with
    | .error e => "Error: " ++ pyExnMsg e
    | .ok df =>
      if df.isEmpty then dateStr
      else
        let candidates := df.filter
          (fun r => r.is_trading_day == "1" && strLt r.calendar_date dateStr)
        match (sortByDate candidates).getLast? with
        | none => dateStr
        | some r => r.calendar_date

/-- `next_trading_day` (`src/tools/date_utils.py` lines 205-232):
mirror image over `[date, date+30d]`, strictly after `date`, sorted
ascending, first element. -/
def next_trading_day (dateStr : String)
    (fetch : String → String → Except PyExn (List TradeDateRecord)) : String :=
  match parseIsoDate dateStr with
  | none =>
    "Error: time data '" ++ dateStr ++ "' does not match format '%Y-%m-%d'"
  | some d =>
    let endD := strftimeYmd (addDays d 30)
    match fetch dateStr endD with
    | .error e => "Error: " ++ pyExnMsg e
    | .ok df =>
      if df.isEmpty then dateStr
      else
        let candidates := df.filter
          (fun r => r.is_trading_day == "1" && strLt dateStr r.calendar_date)
        match (sortByDate candidates).head? with
        | none => dateStr
        | some r => r.calendar_date

/-- The `start_date`/`middle_date` branch ladder of
`get_market_analysis_timeframe` (`src/tools/date_utils.py` lines 84-127),
including the final catch-all `else` for unknown periods. -/
def timeframeStartMiddle (now : PyDate) (period : String) : PyDate × PyDate :=
  if period = "recent" then
    if now.day < 15 then
      if now.month = 1 then (⟨now.year - 1, 11, 1⟩, ⟨now.year - 1, 12, 1⟩)
      else if now.month = 2 then (⟨now.year, 1, 1⟩, ⟨now.year, 1, 1⟩)
      else (⟨now.year, now.month - 2, 1⟩, ⟨now.year, now.month - 1, 1⟩)
    else
      if now.month = 1 then (⟨now.year - 1, 12, 1⟩, ⟨now.year - 1, 12, 1⟩)
      else (⟨now.year, now.month - 1, 1⟩, ⟨now.year, now.month - 1, 1⟩)
  else if period = "quarter" then
    let s : PyDate :=
      if now.month ≤ 3 then ⟨now.year - 1, now.month + 9, 1⟩
      else ⟨now.year, now.month - 3, 1⟩
    (s, s)
  else if period = "half_year" then
    let s : PyDate :=
      if now.month ≤ 6 then ⟨now.year - 1, now.month + 6, 1⟩
      else ⟨now.year, now.month - 6, 1⟩
    let m : PyDate :=
      if s.month ≤ 9 then ⟨s.year, s.month + 3, 1⟩
      else ⟨s.year + 1, s.month - 9, 1⟩
    (s, m)
  else if period = "year" then
    let s : PyDate := ⟨now.year - 1, now.month, 1⟩
    let m : PyDate :=
      if s.month ≤ 6 then ⟨s.year, s.month + 6, 1⟩
      else ⟨s.year + 1, s.month - 6, 1⟩
    (s, m)
  else
    if now.month = 1 then (⟨now.year - 1, 12, 1⟩, ⟨now.year - 1, 12, 1⟩)
    else (⟨now.year, now.month - 1, 1⟩, ⟨now.year, now.month - 1, 1⟩)

/-- `end_iso_date` (`src/tools/date_utils.py` lines 129-133): today,
its day clamped to the current month's length. -/
def endIsoOf (now : PyDate) : String :=
  let end_day := min (monthLen now.year now.month) now.day
  toString now.year ++ "-" ++ pad2 now.month ++ "-" ++ pad2 end_day

/-- `start_iso_date` (line 135): first of the start month. -/
def startIsoOf (s : PyDate) : String :=
  toString s.year ++ "-" ++ pad2 s.month ++ "-01"

/-- The `date_range` label ladder (lines 137-144). -/
def dateRangeLabel (now s m : PyDate) : String :=
  if s.year ≠ now.year then
    toString s.year ++ "年" ++ toString s.month ++ "月-"
      ++ toString now.year ++ "年" ++ toString now.month ++ "月"
  else if m.month ≠ s.month ∧ m.month ≠ now.month then
    toString s.year ++ "年" ++ toString s.month ++ "月-"
      ++ toString m.month ++ "月-" ++ toString now.month ++ "月"
  else if s.month ≠ now.month then
    toString s.year ++ "年" ++ toString s.month ++ "月-"
      ++ toString now.month ++ "月"
  else
    toString s.year ++ "年" ++ toString s.month ++ "月"

/-- `get_market_analysis_timeframe` (`src/tools/date_utils.py` lines
67-148): branch ladder for start/middle, then label plus ISO window,
with `end_date = now`. -/
def get_market_analysis_timeframe (now : PyDate) (period : String) : String :=
  let sm := timeframeStartMiddle now period
  dateRangeLabel now sm.1 sm.2 ++ " (ISO: " ++ startIsoOf sm.1
    ++ " to " ++ endIsoOf now ++ ")"

/-- Day 1 of the calendar month preceding `now`'s month, wrapping to
December of the prior year in January (claim-side description of the
default window start). -/
def firstOfPrevMonth (now : PyDate) : PyDate :=
  if now.month = 1 then ⟨now.year - 1, 12, 1⟩ else ⟨now.year, now.month - 1, 1⟩

/-- `True` on a fetch outcome exactly when it raised `NoDataFoundError`. -/
def isNoDataFoundRes {α : Type} : Except PyExn α → Bool
  | .error (.noDataFound _) => true
  | _ => false

/-! ## Helper lemmas on the session context and boundary wrap -/

theorem login_ctx_ok {α : Type} (login : LoginResult)
    (hl : login.error_code = "0") (body : Unit → Except PyExn α) :
    (baostock_login_context login body none).1 = body () := by
  simp [baostock_login_context, hl]

theorem login_ctx_fst_ok {α : Type} {login : LoginResult}
    {body : Unit → Except PyExn α} {lf : Option PyExn} {v : α}
    (h : (baostock_login_context login body lf).1 = .ok v) :
    body () = .ok v := by
  unfold baostock_login_context at h
  split at h
  · simp at h
  · cases lf with
    | none => exact h
    | some e => simp at h

theorem wrapUnexpected_ok {α : Type} {m : String} {r : Except PyExn α} {v : α}
    (h : wrapUnexpected m r = .ok v) : r = .ok v := by
  cases r with
  | ok w => simpa [wrapUnexpected] using h
  | error e => cases e <;> simp [wrapUnexpected] at h

theorem wrapUnexpected_error_typed {α : Type} {m : String}
    {r : Except PyExn α} {e : PyExn}
    (h : wrapUnexpected m r = .error e) : isTypedExn e = true := by
  cases r with
  | ok w => simp [wrapUnexpected] at h
  | error e' =>
    cases e' <;> simp [wrapUnexpected] at h <;> simp [← h, isTypedExn]

theorem fetchFinancialBody_ok {q : Except PyExn QueryResult}
    {n c y : String} {qt : Nat} {df : DataFrame}
    (h : fetchFinancialBody q n c y qt = .ok df) : df.rows ≠ [] := by
  unfold fetchFinancialBody at h
  cases q with
  | error e => simp at h
  | ok rs =>
    obtain ⟨ec, em, fl, rows⟩ := rs
    dsimp only [] at h
    by_cases hc : ec = "0"
    · subst hc
      cases rows with
      | nil => simp at h
      | cons r rest =>
        have h2 : ({ columns := fl, rows := r :: rest } : DataFrame) = df := by
          simpa using h
        rw [← h2]
        simp
    · rw [if_pos hc] at h
      split at h <;> simp at h

theorem kDataBody_ok {q : Except PyExn QueryResult} {c : String}
    {df : DataFrame} (h : kDataBody q c = .ok df) : df.rows ≠ [] := by
  unfold kDataBody at h
  cases q with
  | error e => simp at h
  | ok rs =>
    obtain ⟨ec, em, fl, rows⟩ := rs
    dsimp only [] at h
    by_cases hc : ec = "0"
    · subst hc
      cases rows with
      | nil => simp at h
      | cons r rest =>
        have h2 : ({ columns := fl, rows := r :: rest } : DataFrame) = df := by
          simpa using h
        rw [← h2]
        simp
    · rw [if_pos hc] at h
      split at h <;> simp at h

theorem tradeDatesBody_ok {q : Except PyExn QueryResult} {s e : String}
    {df : DataFrame} (h : tradeDatesBody q s e = .ok df) : df.rows ≠ [] := by
  unfold tradeDatesBody at h
  cases q with
  | error e' => simp at h
  | ok rs =>
    obtain ⟨ec, em, fl, rows⟩ := rs
    dsimp only [] at h
    by_cases hc : ec = "0"
    · subst hc
      cases rows with
      | nil => simp at h
      | cons r rest =>
        have h2 : ({ columns := fl, rows := r :: rest } : DataFrame) = df := by
          simpa using h
        rw [← h2]
        simp
    · rw [if_pos hc] at h
      simp at h

/-! ## Claims C1-C6 -/

/-- C1: the result-classification rule of the shared financial-data fetch
helper `_fetch_financial_data`: status `"0"` with zero drained rows raises
`NoDataFoundError`; status `"0"` with at least one drained row returns a
table of exactly the drained rows; and a non-`"0"` status whose message
contains `"no record found"` in any character case raises
`NoDataFoundError`, not `DataSourceError`. -/
theorem C1_result_classifier (login : LoginResult) (rs : QueryResult)
    (n c y : String) (qt : Nat) (hl : login.error_code = "0") :
    (rs.error_code = "0" → rs.rows = [] →
      fetch_financial_data login none (.ok rs) n c y qt =
        .error (.noDataFound ("No " ++ n ++ " data found for " ++ c ++ ", "
          ++ y ++ "Q" ++ toString qt ++ " (empty result set).")))
  ∧ (rs.error_code = "0" → rs.rows ≠ [] →
      fetch_financial_data login none (.ok rs) n c y qt =
        .ok { columns := rs.fields, rows := rs.rows })
  ∧ (rs.error_code ≠ "0" → msgSaysNoRecord rs.error_msg = true →
      fetch_financial_data login none (.ok rs) n c y qt =
        .error (.noDataFound ("No " ++ n ++ " data found for " ++ c ++ ", "
          ++ y ++ "Q" ++ toString qt ++ ". Baostock msg: " ++ rs.error_msg))) := by
  refine ⟨?_, ?_, ?_⟩
  · intro h1 h2
    simp [fetch_financial_data, login_ctx_ok login hl, fetchFinancialBody,
      h1, h2, wrapUnexpected]
  · intro h1 h2
    have he : rs.rows.isEmpty = false := by
      simpa [List.isEmpty_iff] using h2
    simp [fetch_financial_data, login_ctx_ok login hl, fetchFinancialBody,
      h1, he, wrapUnexpected]
  · intro h1 h2
    simp [fetch_financial_data, login_ctx_ok login hl, fetchFinancialBody,
      h1, h2, wrapUnexpected]

/-- Witness for C1: a healthy status with one drained row returns exactly
that row under the cursor's column names. -/
theorem C1_result_classifier_witness :
    fetch_financial_data (⟨"0", ""⟩ : LoginResult) none
        (.ok ⟨"0", "", ["a"], [["x"]]⟩) "profit" "sh.600000" "2024" 1 =
      .ok { columns := ["a"], rows := [["x"]] } :=
  (C1_result_classifier ⟨"0", ""⟩ ⟨"0", "", ["a"], [["x"]]⟩
    "profit" "sh.600000" "2024" 1 rfl).2.1 rfl (by simp)

/-- C2: no fetch returns a Success table with zero rows — whenever the
financial helper, the K-data fetch or the trade-dates fetch returns a
DataFrame, it has at least one row (a `"0"` status with an empty drain is
reclassified as `NoDataFoundError`). -/
theorem C2_success_nonempty :
    (∀ (login : LoginResult) (lf : Option PyExn)
       (q : Except PyExn QueryResult) (n c y : String) (qt : Nat)
       (df : DataFrame),
       fetch_financial_data login lf q n c y qt = .ok df → df.rows ≠ [])
  ∧ (∀ (login : LoginResult) (lf : Option PyExn)
       (q : Except PyExn QueryResult) (c : String)
       (fs : Option (List PyVal)) (df : DataFrame),
       get_historical_k_data login lf q c fs = .ok df → df.rows ≠ [])
  ∧ (∀ (login : LoginResult) (lf : Option PyExn)
       (q : Except PyExn QueryResult) (s e : String) (df : DataFrame),
       get_trade_dates login lf q s e = .ok df → df.rows ≠ []) := by
  refine ⟨?_, ?_, ?_⟩
  · intro login lf q n c y qt df h
    exact fetchFinancialBody_ok (login_ctx_fst_ok (wrapUnexpected_ok h))
  · intro login lf q c fs df h
    have h1 := wrapUnexpected_ok h
    cases hf : format_fields fs DEFAULT_K_FIELDS with
    | error e => rw [hf] at h1; exact absurd h1 (by simp)
    | ok s => rw [hf] at h1; exact kDataBody_ok (login_ctx_fst_ok h1)
  · intro login lf q s e df h
    exact tradeDatesBody_ok (login_ctx_fst_ok (wrapUnexpected_ok h))

/-- Witness for C2: a successful financial fetch with one drained row
yields a DataFrame whose row list is non-empty. -/
theorem C2_success_nonempty_witness :
    fetch_financial_data (⟨"0", ""⟩ : LoginResult) none
        (.ok ⟨"0", "", ["a"], [["x"]]⟩) "profit" "sh.600000" "2024" 1 =
      .ok { columns := ["a"], rows := [["x"]] }
  ∧ ({ columns := ["a"], rows := [["x"]] } : DataFrame).rows ≠ [] :=
  ⟨rfl,
   C2_success_nonempty.1 ⟨"0", ""⟩ none (.ok ⟨"0", "", ["a"], [["x"]]⟩)
     "profit" "sh.600000" "2024" 1 { columns := ["a"], rows := [["x"]] }
     rfl⟩

/-- C3: the session context runs login, body and logout in order whenever
login succeeds — whatever the body does, return or raise — and on a
non-`"0"` login status raises `LoginError` with the provider's message
without ever invoking the body. -/
theorem C3_session_contract {α : Type} (login : LoginResult)
    (body : Unit → Except PyExn α) (lf : Option PyExn) :
    (login.error_code = "0" →
      (baostock_login_context login body lf).2 =
        [SessEvent.login, SessEvent.bodyRun, SessEvent.logout])
  ∧ (login.error_code ≠ "0" →
      (baostock_login_context login body lf).1 =
        .error (.loginError ("Baostock login failed: " ++ login.error_msg))
      ∧ SessEvent.bodyRun ∉ (baostock_login_context login body lf).2) := by
  constructor
  · intro hl
    simp [baostock_login_context, hl]
  · intro hl
    simp [baostock_login_context, hl]

/-- Witness for C3: with a raising body the logout event still appears;
with a failed login the result is the typed `LoginError`. -/
theorem C3_session_contract_witness :
    (baostock_login_context (⟨"0", ""⟩ : LoginResult)
        (fun _ => (Except.error (PyExn.other "boom") : Except PyExn Nat))
        none).2 = [SessEvent.login, SessEvent.bodyRun, SessEvent.logout]
  ∧ (baostock_login_context (⟨"1", "denied"⟩ : LoginResult)
        (fun _ => (Except.ok 7 : Except PyExn Nat)) none).1 =
      .error (.loginError "Baostock login failed: denied") :=
  ⟨(C3_session_contract ⟨"0", ""⟩
      (fun _ => (Except.error (PyExn.other "boom") : Except PyExn Nat))
      none).1 rfl,
   ((C3_session_contract ⟨"1", "denied"⟩
      (fun _ => (Except.ok 7 : Except PyExn Nat)) none).2 (by decide)).1⟩

/-- C4 counterexample: `bs.logout()` is called in the `finally` block with
no handler around it, so a logout exception IS raised to the caller — it
replaces a normal body result and masks a body error, refuting "logged
and not raised". -/
theorem C4_logout_failure_cex :
    (baostock_login_context (⟨"0", ""⟩ : LoginResult)
        (fun _ => (Except.ok 0 : Except PyExn Nat))
        (some (PyExn.other "logout boom"))).1 =
      .error (.other "logout boom")
  ∧ (baostock_login_context (⟨"0", ""⟩ : LoginResult)
        (fun _ => (Except.error (PyExn.valueError "real error") :
          Except PyExn Nat))
        (some (PyExn.other "logout boom"))).1 =
      .error (.other "logout boom") :=
  ⟨rfl, rfl⟩

/-- C4 (amended): when logout raises after a successful login, the
teardown exception propagates to the caller unchanged, replacing the
body's outcome (so it can mask an error raised by the body). -/
theorem C4_logout_failure_propagates {α : Type} (login : LoginResult)
    (body : Unit → Except PyExn α) (e : PyExn)
    (hl : login.error_code = "0") :
    (baostock_login_context login body (some e)).1 = .error e := by
  simp [baostock_login_context, hl]

/-- Witness for the amended C4. -/
theorem C4_logout_failure_propagates_witness :
    (baostock_login_context (⟨"0", ""⟩ : LoginResult)
        (fun _ => (Except.ok 1 : Except PyExn Nat))
        (some (PyExn.other "logout boom"))).1 =
      .error (.other "logout boom") :=
  C4_logout_failure_propagates ⟨"0", ""⟩
    (fun _ => (Except.ok 1 : Except PyExn Nat)) (PyExn.other "logout boom") rfl

/-- C5: every exception escaping the financial fetch is one of the four
typed errors (`LoginError`, `NoDataFoundError`, `DataSourceError`,
`ValueError`), and an untyped exception raised during the query is
rewrapped as `DataSourceError` with the original message preserved. -/
theorem C5_error_taxonomy :
    (∀ (login : LoginResult) (lf : Option PyExn)
       (q : Except PyExn QueryResult) (n c y : String) (qt : Nat)
       (e : PyExn),
       fetch_financial_data login lf q n c y qt = .error e →
       isTypedExn e = true)
  ∧ (∀ (login : LoginResult) (n c y m : String) (qt : Nat),
       login.error_code = "0" →
       fetch_financial_data login none (.error (.other m)) n c y qt =
         .error (.dataSourceError ("Unexpected error fetching " ++ n
           ++ " data for " ++ c ++ ": " ++ m))) := by
  constructor
  · intro login lf q n c y qt e h
    unfold fetch_financial_data at h
    exact wrapUnexpected_error_typed h
  · intro login n c y m qt hl
    simp [fetch_financial_data, login_ctx_ok login hl, fetchFinancialBody,
      wrapUnexpected]

/-- Witness for C5: an untyped network fault surfaces as a
`DataSourceError` carrying the original message. -/
theorem C5_error_taxonomy_witness :
    fetch_financial_data (⟨"0", ""⟩ : LoginResult) none
        (.error (.other "boom")) "profit" "sh.600000" "2024" 1 =
      .error (.dataSourceError
        "Unexpected error fetching profit data for sh.600000: boom")
  ∧ isTypedExn (.dataSourceError
      "Unexpected error fetching profit data for sh.600000: boom") = true :=
  ⟨C5_error_taxonomy.2 ⟨"0", ""⟩ "profit" "sh.600000" "2024" "boom" 1 rfl,
   C5_error_taxonomy.1 ⟨"0", ""⟩ none (.error (.other "boom"))
     "profit" "sh.600000" "2024" 1
     (.dataSourceError "Unexpected error fetching profit data for sh.600000: boom")
     (C5_error_taxonomy.2 ⟨"0", ""⟩ "profit" "sh.600000" "2024" "boom" 1 rfl)⟩

/-- C6 counterexample: the trade-date fetch does NOT apply the
`"no record found"`/`"10002"` reclassification — on a non-`"0"` status
whose message is literally `"no record found"` and whose code is
`"10002"` it raises `DataSourceError`, not `NoDataFoundError`. -/
theorem C6_trade_dates_cex :
    get_trade_dates (⟨"0", ""⟩ : LoginResult) none
        (.ok ⟨"10002", "no record found", [], []⟩) "2024-01-01" "2024-01-28" =
      .error (.dataSourceError
        "Baostock API error fetching trade dates: no record found (code: 10002)")
  ∧ isNoDataFoundRes (get_trade_dates (⟨"0", ""⟩ : LoginResult) none
        (.ok ⟨"10002", "no record found", [], []⟩) "2024-01-01" "2024-01-28") =
      false :=
  ⟨rfl, rfl⟩

/-- C6 (amended): the financial and K-data fetches map a non-`"0"` status
with a case-insensitive `"no record found"` message or code `"10002"` to
`NoDataFoundError`, but `get_trade_dates` deviates from the template: it
raises `DataSourceError` for every non-`"0"` status, including those. -/
theorem C6_classification_not_uniform :
    (∀ (login : LoginResult) (rs : QueryResult) (n c y : String) (qt : Nat),
       login.error_code = "0" → rs.error_code ≠ "0" →
       (msgSaysNoRecord rs.error_msg = true ∨ rs.error_code = "10002") →
       isNoDataFoundRes
         (fetch_financial_data login none (.ok rs) n c y qt) = true)
  ∧ (∀ (login : LoginResult) (rs : QueryResult) (c : String),
       login.error_code = "0" → rs.error_code ≠ "0" →
       (msgSaysNoRecord rs.error_msg = true ∨ rs.error_code = "10002") →
       isNoDataFoundRes
         (get_historical_k_data login none (.ok rs) c none) = true)
  ∧ (∀ (login : LoginResult) (rs : QueryResult) (s e : String),
       login.error_code = "0" → rs.error_code ≠ "0" →
       get_trade_dates login none (.ok rs) s e =
         .error (.dataSourceError ("Baostock API error fetching trade dates: "
           ++ rs.error_msg ++ " (code: " ++ rs.error_code ++ ")"))) := by
  refine ⟨?_, ?_, ?_⟩
  · intro login rs n c y qt hl h1 h2
    rcases h2 with h2 | h2 <;>
      simp [fetch_financial_data, login_ctx_ok login hl, fetchFinancialBody,
        h1, h2, wrapUnexpected, isNoDataFoundRes]
  · intro login rs c hl h1 h2
    rcases h2 with h2 | h2 <;>
      simp [get_historical_k_data, format_fields, login_ctx_ok login hl,
        kDataBody, h1, h2, wrapUnexpected, isNoDataFoundRes]
  · intro login rs s e hl h1
    simp [get_trade_dates, login_ctx_ok login hl, tradeDatesBody, h1,
      wrapUnexpected]

/-- Witness for the amended C6: the same "no record found"/10002 response
is `NoDataFoundError` through the financial fetch but `DataSourceError`
through the trade-date fetch. -/
theorem C6_classification_not_uniform_witness :
    isNoDataFoundRes (fetch_financial_data (⟨"0", ""⟩ : LoginResult) none
        (.ok ⟨"10002", "no record found", [], []⟩) "profit" "sh.600000"
        "2024" 1) = true
  ∧ get_trade_dates (⟨"0", ""⟩ : LoginResult) none
        (.ok ⟨"10002", "no record found", [], []⟩) "2024-01-01" "2024-01-28" =
      .error (.dataSourceError
        "Baostock API error fetching trade dates: no record found (code: 10002)") :=
  ⟨C6_classification_not_uniform.1 ⟨"0", ""⟩
     ⟨"10002", "no record found", [], []⟩ "profit" "sh.600000" "2024" 1
     rfl (by decide) (Or.inr rfl),
   C6_classification_not_uniform.2.2 ⟨"0", ""⟩
     ⟨"10002", "no record found", [], []⟩ "2024-01-01" "2024-01-28"
     rfl (by decide)⟩

/-! ## The maximum-scan loop of `get_latest_trading_date` -/

/-- Invariant-carrying specification of the scan: starting from an
accumulator that is `≤ today` when present, the fold returns `none` only
when nothing qualified, and otherwise the maximum qualifying date. -/
theorem foldl_updLatest_spec (today : String) :
    ∀ (ds : List String) (acc : Option String),
      (∀ a, acc = some a → strLe a today = true) →
      (match ds.foldl (updLatest today) acc with
       | none => acc = none ∧ ∀ d ∈ ds, strLe d today = false
       | some m => strLe m today = true
           ∧ (m ∈ ds ∨ acc = some m)
           ∧ (∀ d ∈ ds, strLe d today = true → strLe d m = true)
           ∧ (∀ a, acc = some a → strLe a m = true))
  | [], acc, hacc => by
      cases acc with
      | none => exact ⟨rfl, by simp⟩
      | some a =>
          refine ⟨hacc a rfl, Or.inr rfl, by simp, ?_⟩
          intro a' ha'
          cases ha'
          exact strLe_refl a
  | d :: ds, acc, hacc => by
      rw [List.foldl_cons]
      cases acc with
      | none =>
          by_cases hdt : strLe d today = true
          · have hupd : updLatest today none d = some d := by
              simp [updLatest, hdt]
            rw [hupd]
            have ih := foldl_updLatest_spec today ds (some d)
              (by intro a ha; cases ha; exact hdt)
            cases hres : ds.foldl (updLatest today) (some d) with
            | none => rw [hres] at ih; exact absurd ih.1 (by simp)
            | some m =>
                rw [hres] at ih
                obtain ⟨hm1, hm2, hm3, hm4⟩ := ih
                refine ⟨hm1, ?_, ?_, ?_⟩
                · rcases hm2 with h | h
                  · exact Or.inl (List.mem_cons_of_mem d h)
                  · cases h; exact Or.inl (List.mem_cons_self _ _)
                · intro d' hd' hle
                  rcases List.mem_cons.mp hd' with h | h
                  · subst h; exact hm4 d' rfl
                  · exact hm3 d' h hle
                · intro a ha; cases ha
          · have hdf : strLe d today = false := by simpa using hdt
            have hupd : updLatest today none d = none := by
              simp [updLatest, hdf]
            rw [hupd]
            have ih := foldl_updLatest_spec today ds none
              (by intro a ha; cases ha)
            cases hres : ds.foldl (updLatest today) none with
            | none =>
                rw [hres] at ih
                refine ⟨rfl, ?_⟩
                intro d' hd'
                rcases List.mem_cons.mp hd' with h | h
                · subst h; exact hdf
                · exact ih.2 d' h
            | some m =>
                rw [hres] at ih
                obtain ⟨hm1, hm2, hm3, hm4⟩ := ih
                refine ⟨hm1, ?_, ?_, ?_⟩
                · rcases hm2 with h | h
                  · exact Or.inl (List.mem_cons_of_mem d h)
                  · cases h
                · intro d' hd' hle
                  rcases List.mem_cons.mp hd' with h | h
                  · subst h; rw [hle] at hdf; cases hdf
                  · exact hm3 d' h hle
                · intro a ha; cases ha
      | some a =>
          have hat : strLe a today = true := hacc a rfl
          by_cases hcond : (strLe d today && strLt a d) = true
          · have hupd : updLatest today (some a) d = some d := by
              simp [updLatest, hcond]
            obtain ⟨hdt, had⟩ := (Bool.and_eq_true _ _).mp hcond
            rw [hupd]
            have ih := foldl_updLatest_spec today ds (some d)
              (by intro a' ha'; cases ha'; exact hdt)
            cases hres : ds.foldl (updLatest today) (some d) with
            | none => rw [hres] at ih; exact absurd ih.1 (by simp)
            | some m =>
                rw [hres] at ih
                obtain ⟨hm1, hm2, hm3, hm4⟩ := ih
                refine ⟨hm1, ?_, ?_, ?_⟩
                · rcases hm2 with h | h
                  · exact Or.inl (List.mem_cons_of_mem d h)
                  · cases h; exact Or.inl (List.mem_cons_self _ _)
                · intro d' hd' hle
                  rcases List.mem_cons.mp hd' with h | h
                  · subst h; exact hm4 d' rfl
                  · exact hm3 d' h hle
                · intro a' ha'
                  cases ha'
                  exact strLe_trans (strLe_of_strLt had) (hm4 d rfl)
          · have hupd : updLatest today (some a) d = some a := by
              simp only [updLatest]
              rw [if_neg hcond]
            rw [hupd]
            have ih := foldl_updLatest_spec today ds (some a)
              (by intro a' ha'; cases ha'; exact hat)
            cases hres : ds.foldl (updLatest today) (some a) with
            | none => rw [hres] at ih; exact absurd ih.1 (by simp)
            | some m =>
                rw [hres] at ih
                obtain ⟨hm1, hm2, hm3, hm4⟩ := ih
                refine ⟨hm1, ?_, ?_, ?_⟩
                · rcases hm2 with h | h
                  · exact Or.inl (List.mem_cons_of_mem d h)
                  · exact Or.inr h
                · intro d' hd' hle
                  rcases List.mem_cons.mp hd' with h | h
                  · subst h
                    have hlt : strLt a d' = false := by
                      rcases Bool.eq_false_or_eq_true (strLt a d') with h' | h'
                      · exact absurd (by rw [hle, h']; rfl) hcond
                      · exact h' 
                    have hda : strLe d' a = true := by simp [strLe, hlt]
                    exact strLe_trans hda (hm4 a rfl)
                  · exact hm3 d' h hle
                · exact hm4

/-- C7: `get_latest_trading_date` queries the trade-date calendar for the
current month from day 1 to day 28 (it depends on the data source only
through that query); among the records flagged `"1"` with
`calendar_date <= today` it returns the maximum such date; when no such
record exists, or when the fetch raises, it returns today's date itself
and never propagates an error. -/
theorem C7_latest_trading_date (now : PyDate)
    (fetch : String → String → Except PyExn (List TradeDateRecord)) :
    (∀ (fetch' : String → String → Except PyExn (List TradeDateRecord)),
       fetch (strftimeYmd ⟨now.year, now.month, 1⟩)
           (strftimeYmd ⟨now.year, now.month, 28⟩) =
         fetch' (strftimeYmd ⟨now.year, now.month, 1⟩)
           (strftimeYmd ⟨now.year, now.month, 28⟩) →
       get_latest_trading_date now fetch = get_latest_trading_date now fetch')
  ∧ (∀ e, fetch (strftimeYmd ⟨now.year, now.month, 1⟩)
        (strftimeYmd ⟨now.year, now.month, 28⟩) = .error e →
      get_latest_trading_date now fetch = strftimeYmd now)
  ∧ (∀ recs, fetch (strftimeYmd ⟨now.year, now.month, 1⟩)
        (strftimeYmd ⟨now.year, now.month, 28⟩) = .ok recs →
      (∃ t ∈ recs, t.is_trading_day = "1"
          ∧ get_latest_trading_date now fetch = t.calendar_date
          ∧ strLe t.calendar_date (strftimeYmd now) = true
          ∧ ∀ t' ∈ recs, t'.is_trading_day = "1" →
              strLe t'.calendar_date (strftimeYmd now) = true →
              strLe t'.calendar_date t.calendar_date = true)
      ∨ (get_latest_trading_date now fetch = strftimeYmd now
          ∧ ∀ t ∈ recs, t.is_trading_day = "1" →
              strLe t.calendar_date (strftimeYmd now) = false)) := by
  refine ⟨?_, ?_, ?_⟩
  · intro fetch' heq
    simp only [get_latest_trading_date]
    rw [heq]
  · intro e he
    simp [get_latest_trading_date, he]
  · intro recs hr
    simp only [get_latest_trading_date, hr]
    have hspec := foldl_updLatest_spec (strftimeYmd now)
      ((recs.filter (fun r => r.is_trading_day == "1")).map
        (fun r => r.calendar_date)) none (by intro a ha; cases ha)
    cases hfold : ((recs.filter (fun r => r.is_trading_day == "1")).map
        (fun r => r.calendar_date)).foldl (updLatest (strftimeYmd now)) none with
    | none =>
        rw [hfold] at hspec
        simp only [hfold]
        obtain ⟨-, hall⟩ := hspec
        refine Or.inr ⟨by trivial, ?_⟩
        intro t ht hflag
        exact hall t.calendar_date
          (List.mem_map.mpr ⟨t, List.mem_filter.mpr ⟨ht, by simp [hflag]⟩, rfl⟩)
    | some m =>
        rw [hfold] at hspec
        simp only [hfold]
        obtain ⟨hm1, hm2, hm3, -⟩ := hspec
        rcases hm2 with hm2 | hm2
        · obtain ⟨t, htf, htd⟩ := List.mem_map.mp hm2
          obtain ⟨htm, htflag⟩ := List.mem_filter.mp htf
          refine Or.inl ⟨t, htm, by simpa using htflag, htd.symm, ?_, ?_⟩
          · rw [htd]; exact hm1
          · intro t' ht' hflag' hle'
            rw [htd]
            exact hm3 t'.calendar_date
              (List.mem_map.mpr
                ⟨t', List.mem_filter.mpr ⟨ht', by simp [hflag']⟩, rfl⟩)
              hle'
        · cases hm2

/-- Witness for C7: over a January 2024 calendar slice queried as of
2024-01-10, the maximum trading date not after the 10th is 2024-01-09. -/
theorem C7_latest_trading_date_witness :
    get_latest_trading_date ⟨2024, 1, 10⟩
        (fun _ _ => .ok [⟨"2024-01-02", "1"⟩, ⟨"2024-01-09", "1"⟩,
          ⟨"2024-01-15", "1"⟩, ⟨"2024-01-10", "0"⟩]) = "2024-01-09"
  ∧ ((∃ t ∈ [(⟨"2024-01-02", "1"⟩ : TradeDateRecord), ⟨"2024-01-09", "1"⟩,
        ⟨"2024-01-15", "1"⟩, ⟨"2024-01-10", "0"⟩], t.is_trading_day = "1"
      ∧ get_latest_trading_date ⟨2024, 1, 10⟩
          (fun _ _ => .ok [⟨"2024-01-02", "1"⟩, ⟨"2024-01-09", "1"⟩,
            ⟨"2024-01-15", "1"⟩, ⟨"2024-01-10", "0"⟩]) = t.calendar_date
      ∧ strLe t.calendar_date (strftimeYmd ⟨2024, 1, 10⟩) = true
      ∧ ∀ t' ∈ [(⟨"2024-01-02", "1"⟩ : TradeDateRecord), ⟨"2024-01-09", "1"⟩,
          ⟨"2024-01-15", "1"⟩, ⟨"2024-01-10", "0"⟩], t'.is_trading_day = "1" →
          strLe t'.calendar_date (strftimeYmd ⟨2024, 1, 10⟩) = true →
          strLe t'.calendar_date t.calendar_date = true)
    ∨ (get_latest_trading_date ⟨2024, 1, 10⟩
          (fun _ _ => .ok [⟨"2024-01-02", "1"⟩, ⟨"2024-01-09", "1"⟩,
            ⟨"2024-01-15", "1"⟩, ⟨"2024-01-10", "0"⟩]) =
        strftimeYmd ⟨2024, 1, 10⟩
      ∧ ∀ t ∈ [(⟨"2024-01-02", "1"⟩ : TradeDateRecord), ⟨"2024-01-09", "1"⟩,
          ⟨"2024-01-15", "1"⟩, ⟨"2024-01-10", "0"⟩], t.is_trading_day = "1" →
          strLe t.calendar_date (strftimeYmd ⟨2024, 1, 10⟩) = false)) :=
  ⟨rfl,
   (C7_latest_trading_date ⟨2024, 1, 10⟩
      (fun _ _ => .ok [⟨"2024-01-02", "1"⟩, ⟨"2024-01-09", "1"⟩,
        ⟨"2024-01-15", "1"⟩, ⟨"2024-01-10", "0"⟩])).2.2
     [⟨"2024-01-02", "1"⟩, ⟨"2024-01-09", "1"⟩,
      ⟨"2024-01-15", "1"⟩, ⟨"2024-01-10", "0"⟩] rfl⟩


/-! ## Sorting lemmas for `previous_trading_day` / `next_trading_day` -/

theorem insertByDate_ne_nil (x : TradeDateRecord) :
    ∀ (l : List TradeDateRecord), insertByDate x l ≠ []
  | [] => by simp [insertByDate]
  | y :: ys => by
      unfold insertByDate
      split <;> simp

theorem mem_insertByDate {r x : TradeDateRecord} :
    ∀ {l : List TradeDateRecord}, r ∈ insertByDate x l ↔ r = x ∨ r ∈ l
  | [] => by simp [insertByDate]
  | y :: ys => by
      unfold insertByDate
      split
      · simp [List.mem_cons]
      · rw [List.mem_cons, mem_insertByDate, List.mem_cons]
        tauto

theorem mem_sortByDate {r : TradeDateRecord} :
    ∀ {l : List TradeDateRecord}, r ∈ sortByDate l ↔ r ∈ l
  | [] => Iff.rfl
  | x :: xs => by
      unfold sortByDate
      rw [mem_insertByDate, mem_sortByDate, List.mem_cons]

theorem getLast?_cons_of_ne_nil {α : Type} (y : α) :
    ∀ (t : List α), t ≠ [] → (y :: t).getLast? = t.getLast?
  | [], h => absurd rfl h
  | z :: zs, _ => by
      rw [List.getLast?_cons_cons]

/-- Inserting into a list with known last element `m` that bounds the
list from above: the new last element is `max m x` by date. -/
theorem insertByDate_getLast (x : TradeDateRecord) :
    ∀ (l : List TradeDateRecord) (m : TradeDateRecord),
      l.getLast? = some m →
      (∀ r ∈ l, strLe r.calendar_date m.calendar_date = true) →
      (insertByDate x l).getLast? =
        some (if strLe x.calendar_date m.calendar_date = true then m else x)
  | [], m, hm, _ => by simp at hm
  | [y], m, hm, hb => by
      have hym : y = m := by simpa using hm
      subst hym
      unfold insertByDate
      by_cases hxy : strLe x.calendar_date y.calendar_date = true
      · rw [if_pos hxy, if_pos hxy]
        rfl
      · rw [if_neg hxy, if_neg hxy]
        rfl
  | y :: z :: zs, m, hm, hb => by
      unfold insertByDate
      by_cases hxy : strLe x.calendar_date y.calendar_date = true
      · rw [if_pos hxy]
        have hym : strLe y.calendar_date m.calendar_date = true :=
          hb y (List.mem_cons_self _ _)
        have hxm : strLe x.calendar_date m.calendar_date = true :=
          strLe_trans hxy hym
        rw [if_pos hxm]
        rw [getLast?_cons_of_ne_nil x (y :: z :: zs) (by simp)]
        exact hm
      · rw [if_neg hxy]
        have hm' : (z :: zs).getLast? = some m := by
          rw [getLast?_cons_of_ne_nil y (z :: zs) (by simp)] at hm
          exact hm
        have hb' : ∀ r ∈ z :: zs, strLe r.calendar_date m.calendar_date = true :=
          fun r hr => hb r (List.mem_cons_of_mem y hr)
        have ih := insertByDate_getLast x (z :: zs) m hm' hb'
        rw [getLast?_cons_of_ne_nil y _ (insertByDate_ne_nil x (z :: zs))]
        exact ih

/-- The last element of the date-sorted list is the maximum by date. -/
theorem sortByDate_max :
    ∀ (l : List TradeDateRecord), l ≠ [] →
      ∃ m, (sortByDate l).getLast? = some m ∧ m ∈ l ∧
        ∀ r ∈ l, strLe r.calendar_date m.calendar_date = true
  | [], h => absurd rfl h
  | [x], _ => by
      refine ⟨x, rfl, by simp, ?_⟩
      intro r hr
      rcases List.mem_singleton.mp hr with rfl
      exact strLe_refl _
  | x :: y :: ys, _ => by
      obtain ⟨m, hm1, hm2, hm3⟩ := sortByDate_max (y :: ys) (by simp)
      have hb : ∀ r ∈ sortByDate (y :: ys),
          strLe r.calendar_date m.calendar_date = true :=
        fun r hr => hm3 r (mem_sortByDate.mp hr)
      have hins := insertByDate_getLast x (sortByDate (y :: ys)) m hm1 hb
      by_cases hxm : strLe x.calendar_date m.calendar_date = true
      · rw [if_pos hxm] at hins
        refine ⟨m, hins, List.mem_cons_of_mem x hm2, ?_⟩
        intro r hr
        rcases List.mem_cons.mp hr with rfl | hr'
        · exact hxm
        · exact hm3 r hr'
      · rw [if_neg hxm] at hins
        have hmx : strLe m.calendar_date x.calendar_date = true := strLe_total hxm
        refine ⟨x, hins, List.mem_cons_self _ _, ?_⟩
        intro r hr
        rcases List.mem_cons.mp hr with rfl | hr'
        · exact strLe_refl _
        · exact strLe_trans (hm3 r hr') hmx

/-- Inserting into a list with known head `m`: the new head is the
smaller of `x` and `m` by date. -/
theorem insertByDate_head (x : TradeDateRecord) :
    ∀ (l : List TradeDateRecord) (m : TradeDateRecord),
      l.head? = some m →
      (insertByDate x l).head? =
        some (if strLe x.calendar_date m.calendar_date = true then x else m)
  | [], m, hm => by simp at hm
  | y :: ys, m, hm => by
      have hym : y = m := by simpa using hm
      subst hym
      unfold insertByDate
      by_cases hxy : strLe x.calendar_date y.calendar_date = true
      · rw [if_pos hxy, if_pos hxy]
        rfl
      · rw [if_neg hxy, if_neg hxy]
        rfl

/-- The head of the date-sorted list is the minimum by date. -/
theorem sortByDate_min :
    ∀ (l : List TradeDateRecord), l ≠ [] →
      ∃ m, (sortByDate l).head? = some m ∧ m ∈ l ∧
        ∀ r ∈ l, strLe m.calendar_date r.calendar_date = true
  | [], h => absurd rfl h
  | [x], _ => by
      refine ⟨x, rfl, by simp, ?_⟩
      intro r hr
      rcases List.mem_singleton.mp hr with rfl
      exact strLe_refl _
  | x :: y :: ys, _ => by
      obtain ⟨m, hm1, hm2, hm3⟩ := sortByDate_min (y :: ys) (by simp)
      have hins := insertByDate_head x (sortByDate (y :: ys)) m hm1
      by_cases hxm : strLe x.calendar_date m.calendar_date = true
      · rw [if_pos hxm] at hins
        refine ⟨x, hins, List.mem_cons_self _ _, ?_⟩
        intro r hr
        rcases List.mem_cons.mp hr with rfl | hr'
        · exact strLe_refl _
        · exact strLe_trans hxm (hm3 r hr')
      · rw [if_neg hxm] at hins
        refine ⟨m, hins, List.mem_cons_of_mem x hm2, ?_⟩
        intro r hr
        rcases List.mem_cons.mp hr with rfl | hr'
        · exact strLe_total hxm
        · exact hm3 r hr'

/-- C8: for a valid input date whose window query returns records lying
inside the queried range, `previous_trading_day` / `next_trading_day`
never return a date outside the ±30-day window around the input: a
returned trading date is a fetched record's date, the closest one strictly
before (maximum) resp. strictly after (minimum) the input, and within
`[date-30d, date]` resp. `[date, date+30d]`; when the returned records
hold no trading day strictly before/after the input, the unmodified input
date is returned. -/
theorem C8_prev_next_window :
    (∀ (dateStr : String) (d : PyDate)
       (fetch : String → String → Except PyExn (List TradeDateRecord))
       (recs : List TradeDateRecord),
       parseIsoDate dateStr = some d →
       fetch (strftimeYmd (subDays d 30)) dateStr = .ok recs →
       (∀ r ∈ recs, strLe (strftimeYmd (subDays d 30)) r.calendar_date = true
           ∧ strLe r.calendar_date dateStr = true) →
       ((∀ r ∈ recs, r.is_trading_day = "1" →
           strLt r.calendar_date dateStr = false) →
         previous_trading_day dateStr fetch = dateStr)
       ∧ (∀ t ∈ recs, t.is_trading_day = "1" →
           strLt t.calendar_date dateStr = true →
           ∃ u ∈ recs, u.is_trading_day = "1"
             ∧ previous_trading_day dateStr fetch = u.calendar_date
             ∧ strLe (strftimeYmd (subDays d 30)) u.calendar_date = true
             ∧ strLt u.calendar_date dateStr = true
             ∧ ∀ r ∈ recs, r.is_trading_day = "1" →
                 strLt r.calendar_date dateStr = true →
                 strLe r.calendar_date u.calendar_date = true))
  ∧ (∀ (dateStr : String) (d : PyDate)
       (fetch : String → String → Except PyExn (List TradeDateRecord))
       (recs : List TradeDateRecord),
       parseIsoDate dateStr = some d →
       fetch dateStr (strftimeYmd (addDays d 30)) = .ok recs →
       (∀ r ∈ recs, strLe dateStr r.calendar_date = true
           ∧ strLe r.calendar_date (strftimeYmd (addDays d 30)) = true) →
       ((∀ r ∈ recs, r.is_trading_day = "1" →
           strLt dateStr r.calendar_date = false) →
         next_trading_day dateStr fetch = dateStr)
       ∧ (∀ t ∈ recs, t.is_trading_day = "1" →
           strLt dateStr t.calendar_date = true →
           ∃ u ∈ recs, u.is_trading_day = "1"
             ∧ next_trading_day dateStr fetch = u.calendar_date
             ∧ strLt dateStr u.calendar_date = true
             ∧ strLe u.calendar_date (strftimeYmd (addDays d 30)) = true
             ∧ ∀ r ∈ recs, r.is_trading_day = "1" →
                 strLt dateStr r.calendar_date = true →
                 strLe u.calendar_date r.calendar_date = true)) := by
  constructor
  · intro dateStr d fetch recs hp hf hrange
    constructor
    · intro hnone
      simp only [previous_trading_day, hp, hf]
      have hfilter : recs.filter
          (fun r => r.is_trading_day == "1" && strLt r.calendar_date dateStr)
            = [] := by
        rw [List.filter_eq_nil_iff]
        intro r hr
        simp only [Bool.and_eq_true, beq_iff_eq, not_and]
        intro hflag
        rw [hnone r hr hflag]
        simp
      split
      · rfl
      · rw [hfilter]
        rfl
    · intro t ht hflag hlt
      simp only [previous_trading_day, hp, hf]
      have htf : t ∈ recs.filter
          (fun r => r.is_trading_day == "1" && strLt r.calendar_date dateStr) :=
        List.mem_filter.mpr ⟨ht, by simp [hflag, hlt]⟩
      have hne : recs.filter
          (fun r => r.is_trading_day == "1" && strLt r.calendar_date dateStr)
            ≠ [] := by
        intro hnil
        rw [hnil] at htf
        cases htf
      obtain ⟨m, hm1, hm2, hm3⟩ := sortByDate_max _ hne
      obtain ⟨hmm, hmflag⟩ := List.mem_filter.mp hm2
      obtain ⟨hmf, hml⟩ := (Bool.and_eq_true _ _).mp hmflag
      have hre : ¬ recs.isEmpty = true := by
        intro h
        rw [List.isEmpty_iff.mp h] at ht
        cases ht
      rw [if_neg hre]
      rw [hm1]
      refine ⟨m, hmm, by simpa using hmf, rfl, (hrange m hmm).1, hml, ?_⟩
      intro r hr hrf hrl
      exact hm3 r (List.mem_filter.mpr ⟨hr, by simp [hrf, hrl]⟩)
  · intro dateStr d fetch recs hp hf hrange
    constructor
    · intro hnone
      simp only [next_trading_day, hp, hf]
      have hfilter : recs.filter
          (fun r => r.is_trading_day == "1" && strLt dateStr r.calendar_date)
            = [] := by
        rw [List.filter_eq_nil_iff]
        intro r hr
        simp only [Bool.and_eq_true, beq_iff_eq, not_and]
        intro hflag
        rw [hnone r hr hflag]
        simp
      split
      · rfl
      · rw [hfilter]
        rfl
    · intro t ht hflag hlt
      simp only [next_trading_day, hp, hf]
      have htf : t ∈ recs.filter
          (fun r => r.is_trading_day == "1" && strLt dateStr r.calendar_date) :=
        List.mem_filter.mpr ⟨ht, by simp [hflag, hlt]⟩
      have hne : recs.filter
          (fun r => r.is_trading_day == "1" && strLt dateStr r.calendar_date)
            ≠ [] := by
        intro hnil
        rw [hnil] at htf
        cases htf
      obtain ⟨m, hm1, hm2, hm3⟩ := sortByDate_min _ hne
      obtain ⟨hmm, hmflag⟩ := List.mem_filter.mp hm2
      obtain ⟨hmf, hml⟩ := (Bool.and_eq_true _ _).mp hmflag
      have hre : ¬ recs.isEmpty = true := by
        intro h
        rw [List.isEmpty_iff.mp h] at ht
        cases ht
      rw [if_neg hre]
      rw [hm1]
      refine ⟨m, hmm, by simpa using hmf, rfl, hml, (hrange m hmm).2, ?_⟩
      intro r hr hrf hrl
      exact hm3 r (List.mem_filter.mpr ⟨hr, by simp [hrf, hrl]⟩)

set_option maxRecDepth 8000 in
/-- Witness for C8: around 2024-01-10, the previous trading day over a
concrete window is 2024-01-08 (the maximum flagged date strictly before)
and the next is 2024-01-12 (the minimum flagged date strictly after),
both within the ±30-day window. -/
theorem C8_prev_next_window_witness :
    previous_trading_day "2024-01-10"
        (fun _ _ => .ok [⟨"2024-01-05", "1"⟩, ⟨"2024-01-08", "1"⟩,
          ⟨"2024-01-09", "0"⟩]) = "2024-01-08"
  ∧ next_trading_day "2024-01-10"
        (fun _ _ => .ok [⟨"2024-01-11", "0"⟩, ⟨"2024-01-12", "1"⟩,
          ⟨"2024-01-15", "1"⟩]) = "2024-01-12"
  ∧ (∃ u ∈ [(⟨"2024-01-05", "1"⟩ : TradeDateRecord), ⟨"2024-01-08", "1"⟩,
        ⟨"2024-01-09", "0"⟩], u.is_trading_day = "1"
      ∧ previous_trading_day "2024-01-10"
          (fun _ _ => .ok [⟨"2024-01-05", "1"⟩, ⟨"2024-01-08", "1"⟩,
            ⟨"2024-01-09", "0"⟩]) = u.calendar_date
      ∧ strLe (strftimeYmd (subDays ⟨2024, 1, 10⟩ 30)) u.calendar_date = true
      ∧ strLt u.calendar_date "2024-01-10" = true
      ∧ ∀ r ∈ [(⟨"2024-01-05", "1"⟩ : TradeDateRecord), ⟨"2024-01-08", "1"⟩,
          ⟨"2024-01-09", "0"⟩], r.is_trading_day = "1" →
          strLt r.calendar_date "2024-01-10" = true →
          strLe r.calendar_date u.calendar_date = true)
  ∧ (∃ u ∈ [(⟨"2024-01-11", "0"⟩ : TradeDateRecord), ⟨"2024-01-12", "1"⟩,
        ⟨"2024-01-15", "1"⟩], u.is_trading_day = "1"
      ∧ next_trading_day "2024-01-10"
          (fun _ _ => .ok [⟨"2024-01-11", "0"⟩, ⟨"2024-01-12", "1"⟩,
            ⟨"2024-01-15", "1"⟩]) = u.calendar_date
      ∧ strLt "2024-01-10" u.calendar_date = true
      ∧ strLe u.calendar_date (strftimeYmd (addDays ⟨2024, 1, 10⟩ 30)) = true
      ∧ ∀ r ∈ [(⟨"2024-01-11", "0"⟩ : TradeDateRecord), ⟨"2024-01-12", "1"⟩,
          ⟨"2024-01-15", "1"⟩], r.is_trading_day = "1" →
          strLt "2024-01-10" r.calendar_date = true →
          strLe u.calendar_date r.calendar_date = true) :=
  ⟨rfl, rfl,
   ((C8_prev_next_window.1 "2024-01-10" ⟨2024, 1, 10⟩
      (fun _ _ => .ok [⟨"2024-01-05", "1"⟩, ⟨"2024-01-08", "1"⟩,
        ⟨"2024-01-09", "0"⟩])
      [⟨"2024-01-05", "1"⟩, ⟨"2024-01-08", "1"⟩, ⟨"2024-01-09", "0"⟩]
      rfl rfl (by decide)).2
     ⟨"2024-01-08", "1"⟩ (by simp) rfl (by decide)),
   ((C8_prev_next_window.2 "2024-01-10" ⟨2024, 1, 10⟩
      (fun _ _ => .ok [⟨"2024-01-11", "0"⟩, ⟨"2024-01-12", "1"⟩,
        ⟨"2024-01-15", "1"⟩])
      [⟨"2024-01-11", "0"⟩, ⟨"2024-01-12", "1"⟩, ⟨"2024-01-15", "1"⟩]
      rfl rfl (by decide)).2
     ⟨"2024-01-12", "1"⟩ (by simp) rfl (by decide))⟩

/-- C9 counterexample: called on 2025-05-20 (day-of-month ≥ 15), the
"recent" window runs from day 1 of the preceding month to TODAY — the
window's end (2025-05-20) lies in the current month, not the preceding
one, refuting "the single complete preceding month as both the start and
the end of the window" (which would give 2025-04-01 to 2025-04-30). -/
theorem C9_recent_cex :
    get_market_analysis_timeframe ⟨2025, 5, 20⟩ "recent" =
      "2025年4月-5月 (ISO: 2025-04-01 to 2025-05-20)"
  ∧ get_market_analysis_timeframe ⟨2025, 5, 20⟩ "recent" ≠
      "2025年4月 (ISO: 2025-04-01 to 2025-04-30)" :=
  ⟨rfl, by decide⟩

/-- C9 (amended): with day-of-month ≥ 15, the "recent" timeframe's start
(and middle) is day 1 of the single complete calendar month preceding
the current month, while the window's END is today clamped to the current
month's length — the preceding month is only the start of the window,
not its end. -/
theorem C9_recent_window (now : PyDate) (hd : 15 ≤ now.day) :
    timeframeStartMiddle now "recent" =
      (firstOfPrevMonth now, firstOfPrevMonth now)
  ∧ get_market_analysis_timeframe now "recent" =
      dateRangeLabel now (firstOfPrevMonth now) (firstOfPrevMonth now)
        ++ " (ISO: " ++ startIsoOf (firstOfPrevMonth now)
        ++ " to " ++ endIsoOf now ++ ")" := by
  have hsm : timeframeStartMiddle now "recent" =
      (firstOfPrevMonth now, firstOfPrevMonth now) := by
    unfold timeframeStartMiddle firstOfPrevMonth
    rw [if_pos rfl, if_neg (by omega)]
    by_cases hm : now.month = 1
    · rw [if_pos hm, if_pos hm]
    · rw [if_neg hm, if_neg hm]
  exact ⟨hsm, by simp [get_market_analysis_timeframe, hsm]⟩

/-- Witness for the amended C9, at 2025-05-20. -/
theorem C9_recent_window_witness :
    timeframeStartMiddle ⟨2025, 5, 20⟩ "recent" =
      (firstOfPrevMonth ⟨2025, 5, 20⟩, firstOfPrevMonth ⟨2025, 5, 20⟩) :=
  (C9_recent_window ⟨2025, 5, 20⟩ (by decide)).1

/-- C10: any period string outside {recent, quarter, half_year, year}
(the empty string, a typo...) raises no error: the function silently
falls back to the default window starting at day 1 of the month
preceding the current month (December of the prior year when called in
January), ending today, and returns the normally formatted label. -/
theorem C10_unknown_period_fallback (now : PyDate) (period : String)
    (h1 : period ≠ "recent") (h2 : period ≠ "quarter")
    (h3 : period ≠ "half_year") (h4 : period ≠ "year") :
    timeframeStartMiddle now period =
      (firstOfPrevMonth now, firstOfPrevMonth now)
  ∧ get_market_analysis_timeframe now period =
      dateRangeLabel now (firstOfPrevMonth now) (firstOfPrevMonth now)
        ++ " (ISO: " ++ startIsoOf (firstOfPrevMonth now)
        ++ " to " ++ endIsoOf now ++ ")" := by
  have hsm : timeframeStartMiddle now period =
      (firstOfPrevMonth now, firstOfPrevMonth now) := by
    unfold timeframeStartMiddle firstOfPrevMonth
    rw [if_neg h1, if_neg h2, if_neg h3, if_neg h4]
    by_cases hm : now.month = 1
    · rw [if_pos hm, if_pos hm]
    · rw [if_neg hm, if_neg hm]
  exact ⟨hsm, by simp [get_market_analysis_timeframe, hsm]⟩

/-- Witness for C10: the typo period "bogus" on 2025-03-10 yields the
default February window ending today, formatted normally. -/
theorem C10_unknown_period_fallback_witness :
    timeframeStartMiddle ⟨2025, 3, 10⟩ "bogus" =
      (firstOfPrevMonth ⟨2025, 3, 10⟩, firstOfPrevMonth ⟨2025, 3, 10⟩)
  ∧ get_market_analysis_timeframe ⟨2025, 3, 10⟩ "bogus" =
      "2025年2月-3月 (ISO: 2025-02-01 to 2025-03-10)" :=
  ⟨(C10_unknown_period_fallback ⟨2025, 3, 10⟩ "bogus"
      (by decide) (by decide) (by decide) (by decide)).1, rfl⟩

end AShare
